import Mathlib

set_option maxRecDepth 1000000

set_option maxHeartbeats 8000000

/-!
Verification development for the snek game core (snek.c).

The C source is shallowly embedded: machine integers become Nat with an
explicit modulus where C unsigned wraparound can matter (useconds_t,
uint32_t are 32-bit on the reference platform, size_t is 64-bit), the
doubly linked segment list becomes a head-first List, the item table
(an int array of HEIGHT times WIDTH cells) becomes a function from cell
index to tag, and the pseudo random source, the wall clock and the key
stream become explicit oracle parameters.  Each definition mirrors one C
function and is named after it.
-/

/-! Constants from snek.c (lines 24-51). -/

def U32 : Nat := 4294967296

def U64 : Nat := 18446744073709551616

def EMPTY : Nat := 0

def SNEK_HEAD : Nat := 1

def SNEK_BODY : Nat := 2

def MUSHROOM : Nat := 3

def SNEK_SNACK : Nat := 4

def WALL : Nat := 5

def POISON_DURATION : Nat := 5

/-- Board dimensions: MIN_WIN_HEIGHT = 30, MIN_WIN_WIDTH = 100. -/
def HEIGHT : Nat := 30

def WIDTH : Nat := 100

/-- One snake segment, struct pt (lines 77-82); the next and prev links
are represented by the position in the segment list instead. -/
structure Pt where
  row : Nat
  col : Nat
deriving DecidableEq

/-- struct snek (lines 84-88): the segment list is ordered head first,
so list head = snek->head and list last = snek->tail, and walking the
list front to back is walking the prev pointers from the head.
Directions: NORTH = 0, SOUTH = 1, EAST = 2, WEST = 3. -/
structure Snek where
  segments : List Pt
  dir : Nat

/-- struct game_state (lines 63-75).  items is the int array of
HEIGHT times WIDTH tags, modelled as a function from index to tag.
All times are time_t seconds. -/
structure GameState where
  score : Nat
  items : Nat → Nat
  speed : Nat
  saved_speed : Nat
  paused : Bool
  snacks_refreshed : Nat
  mushrooms_refreshed : Nat
  poisoned : Bool
  poisoned_time : Nat
  last_wall_attempt : Nat

/-- The pair of objects the main loop owns for one session. -/
structure Session where
  snek : Snek
  gs : GameState

/-- Result of one update call: the mutated snek and game state, the
bool returned by update (true = game over), and the rest of the rand
oracle. -/
structure Tick where
  snek : Snek
  gs : GameState
  over : Bool
  rs : List Nat

/-- The decoded key the main loop reads once per iteration
(get_key + lines 684-694); arrow keys already map to w/a/s/d. -/
inductive Key where
  | none
  | w
  | a
  | s
  | d
  | space
deriving DecidableEq

/-- snek->head (the front of the segment list).  The C code would
dereference a null pointer on an empty snake; the default is never
reached under the nonemptiness invariant. -/
def Snek.headPt (sk : Snek) : Pt := sk.segments.headD ⟨0, 0⟩

/-- Cell index of a segment: seg->row * MIN_WIN_WIDTH + seg->col,
computed in 32-bit unsigned arithmetic (row and col are uint32_t). -/
def idxPt (p : Pt) : Nat := (p.row * 100 + p.col) % U32

/-- 32-bit unsigned subtraction a - b (used for uint32_t score
arithmetic); agrees with Nat subtraction whenever b <= a < U32. -/
def usub32 (a b : Nat) : Nat := (a % U32 + (U32 - b % U32)) % U32

/-- snek_init (lines 97-126): head at (15, 52) and INIT_SKEN_LEN = 8
further segments to its west, facing EAST. -/
def snek_init : Snek :=
  { segments := (List.range 9).map (fun j => ⟨15, 52 - j⟩), dir := 2 }

/-- The attempt loop of add_item (lines 131-144).  Each attempt draws
two rand values (row then col) from the oracle list; rand() % 28 + 1
and rand() % 98 + 1 give an interior cell, the head cell and non-Empty
cells are rejected, and the first acceptable cell receives the item. -/
def add_item_go : Nat → List Nat → GameState → Snek → Nat → GameState × List Nat
  | 0, rs, gs, _, _ => (gs, rs)
  | Nat.succ fuel, rs, gs, sk, item =>
    let row := rs.getD 0 0 % 28 + 1
    let col := rs.getD 1 0 % 98 + 1
    if row = sk.headPt.row ∧ col = sk.headPt.col then
      add_item_go fuel (rs.drop 2) gs sk item
    else if gs.items (row * 100 + col) ≠ EMPTY then
      add_item_go fuel (rs.drop 2) gs sk item
    else
      ({ gs with items := fun j => if j = row * 100 + col then item else gs.items j }, rs.drop 2)

/-- add_item (lines 128-145): at most 100 attempts, then give up
silently with the state unchanged. -/
def add_item (rs : List Nat) (gs : GameState) (sk : Snek) (item : Nat) :
    GameState × List Nat :=
  add_item_go 100 rs gs sk item

/-- add_snacks (lines 147-153). -/
def add_snacks : List Nat → GameState → Snek → Nat → GameState × List Nat
  | rs, gs, _, 0 => (gs, rs)
  | rs, gs, sk, Nat.succ n =>
    let a := add_item rs gs sk SNEK_SNACK
    add_snacks a.2 a.1 sk n

/-- add_mushrooms (lines 155-161). -/
def add_mushrooms : List Nat → GameState → Snek → Nat → GameState × List Nat
  | rs, gs, _, 0 => (gs, rs)
  | rs, gs, sk, Nat.succ n =>
    let a := add_item rs gs sk MUSHROOM
    add_mushrooms a.2 a.1 sk n

/-- The three wall cells of one barrier attempt (lines 512-523):
shape 0 is horizontal (i-1, i, i+1), shape 1 is vertical
(i-WIDTH, i, i+WIDTH) around centre index i = row * 100 + col.
Since row >= 1 and col >= 1 the centre index is at least 101, so the
size_t subtractions never underflow and Nat subtraction is exact. -/
def wallsOf (row col shape : Nat) : List Nat :=
  if shape = 0 then [row * 100 + col - 1, row * 100 + col, row * 100 + col + 1]
  else [row * 100 + col - 100, row * 100 + col, row * 100 + col + 100]

/-- Overwrite every listed cell with the given tag, in list order
(lines 539-541). -/
def writeAll (ws : List Nat) (v : Nat) (f : Nat → Nat) : Nat → Nat :=
  ws.foldl (fun g w => fun j => if j = w then v else g j) f

/-- The attempt loop of try_to_add_barrier (lines 506-545).  Each
attempt draws three rand values (row, col, shape); the shape is
rejected if any of its three cells equals the cell index of any snake
segment, and an accepted shape writes WALL to all three cells.  Board
contents are never inspected. -/
def try_go : Nat → List Nat → Snek → GameState → GameState × List Nat
  | 0, rs, _, gs => (gs, rs)
  | Nat.succ fuel, rs, sk, gs =>
    let row := rs.getD 0 0 % 28 + 1
    let col := rs.getD 1 0 % 98 + 1
    let shape := rs.getD 2 0 % 2
    let walls := wallsOf row col shape
    if sk.segments.any (fun p => walls.any (fun w => w == idxPt p)) then
      try_go fuel (rs.drop 3) sk gs
    else
      ({ gs with items := writeAll walls WALL gs.items }, rs.drop 3)

/-- try_to_add_barrier (lines 501-546): up to 3 attempts, silent no-op
on failure. -/
def try_to_add_barrier (rs : List Nat) (sk : Snek) (gs : GameState) :
    GameState × List Nat :=
  try_go 3 rs sk gs

/-- The direction-to-delta table of update (lines 550-564) applied to
the current head, in 32-bit unsigned coordinate arithmetic
(row and col are uint32_t, so row + (-1) wraps at 0). -/
def next_head (sk : Snek) : Pt :=
  let h := sk.headPt
  match sk.dir with
  | 0 => ⟨(h.row + (U32 - 1)) % U32, h.col⟩
  | 1 => ⟨(h.row + 1) % U32, h.col⟩
  | 2 => ⟨h.row, (h.col + 1) % U32⟩
  | 3 => ⟨h.row, (h.col + (U32 - 1)) % U32⟩
  | _ => h

/-- The self-collision scan of update (lines 616-624): walk the body
from head->prev to the tail and compare rows and columns with the new
head. -/
def hits_self (h : Pt) (body : List Pt) : Bool :=
  body.any (fun s => s.row == h.row && s.col == h.col)

/-- Poison expiry at the top of update (lines 566-570): when poisoned
and POISON_DURATION seconds have elapsed, restore the saved speed.
time_t is signed, and a negative elapsed value is below the threshold
exactly as the truncated Nat subtraction is. -/
def poison_restore (gs : GameState) (now : Nat) : GameState :=
  if gs.poisoned = true ∧ now - gs.poisoned_time ≥ POISON_DURATION then
    { gs with poisoned := false, speed := gs.saved_speed, saved_speed := 0 }
  else gs

/-- The tail of update (lines 616-632), shared by the snack, mushroom
and empty-cell branches: self-collision check, then the barrier spawn
check (score at least 500 and at least 100 above the last checkpoint,
in uint32_t arithmetic). -/
def update_after (segs : List Pt) (d : Nat) (gs : GameState) (rs : List Nat) : Tick :=
  if hits_self (segs.headD ⟨0, 0⟩) segs.tail then
    { snek := { segments := segs, dir := d }, gs := gs, over := true, rs := rs }
  else if gs.score ≥ 500 ∧ usub32 gs.score gs.last_wall_attempt ≥ 100 then
    let b := try_to_add_barrier rs { segments := segs, dir := d } gs
    { snek := { segments := segs, dir := d },
      gs := { b.1 with last_wall_attempt := b.1.score }, over := false, rs := b.2 }
  else
    { snek := { segments := segs, dir := d }, gs := gs, over := false, rs := rs }

/-- update (lines 548-633).  Poison expiry, then advance: a new head
cell is linked at the front and the tail cell is unlinked, so the
segment list becomes new head :: dropLast of the old list.  The cell
under the new head is then resolved: SNEK_SNACK adds 10 to the score,
subtracts 1000 from the speed (uint32_t, no floor), clears the cell
and appends three copies of the tail; MUSHROOM adds 75, saves the
speed when saved_speed is 0, halves the speed, clears the cell and
activates poison; WALL returns game over at once.  The empty segment
list case cannot arise (the C code would dereference null). -/
def update (sk : Snek) (gs0 : GameState) (now : Nat) (rs : List Nat) : Tick :=
  let gs := poison_restore gs0 now
  match sk.segments with
  | [] => { snek := sk, gs := gs, over := false, rs := rs }
  | h :: rest =>
    let n := next_head sk
    let segs1 := n :: List.dropLast (h :: rest)
    let i := idxPt n
    if gs.items i = SNEK_SNACK then
      update_after
        (segs1 ++ [segs1.getLastD ⟨0, 0⟩, segs1.getLastD ⟨0, 0⟩, segs1.getLastD ⟨0, 0⟩])
        sk.dir
        { gs with score := (gs.score + 10) % U32,
                  speed := (gs.speed + (U32 - 1000)) % U32,
                  items := fun j => if j = i then EMPTY else gs.items j } rs
    else if gs.items i = MUSHROOM then
      update_after segs1 sk.dir
        { gs with score := (gs.score + 75) % U32,
                  saved_speed := if gs.saved_speed = 0 then gs.speed else gs.saved_speed,
                  speed := gs.speed / 2,
                  items := fun j => if j = i then EMPTY else gs.items j,
                  poisoned := true, poisoned_time := now } rs
    else if gs.items i = WALL then
      { snek := { segments := segs1, dir := sk.dir }, gs := gs, over := true, rs := rs }
    else
      update_after segs1 sk.dir gs rs

/-- in_bounds (lines 635-644). -/
def in_bounds (sk : Snek) : Bool :=
  !(sk.headPt.row == 0 || sk.headPt.col == 0 ||
    sk.headPt.row ≥ 29 || sk.headPt.col ≥ 99)

/-- One iteration of the main game loop (lines 683-748): read one key,
apply the direction or pause effect, and when not paused run update,
the bounds check, and the two timed replenishments.  Returns the new
session and whether the session ended this iteration.  Rendering and
usleep do not change game state and are omitted here. -/
def mainLoopIter (st : Session) (key : Key) (now : Nat) (rs : List Nat) :
    Session × Bool :=
  let sk :=
    match key with
    | Key.w => { st.snek with dir := 0 }
    | Key.a => { st.snek with dir := 3 }
    | Key.s => { st.snek with dir := 1 }
    | Key.d => { st.snek with dir := 2 }
    | _ => st.snek
  let gs :=
    match key with
    | Key.space => { st.gs with paused := !st.gs.paused }
    | _ => st.gs
  if gs.paused then ({ snek := sk, gs := gs }, false)
  else
    let t := update sk gs now rs
    if t.over || !(in_bounds t.snek) then ({ snek := t.snek, gs := t.gs }, true)
    else
      let p1 :=
        if now - t.gs.snacks_refreshed ≥ 10 then
          let a := add_snacks t.rs t.gs t.snek 5
          ({ a.1 with snacks_refreshed := now }, a.2)
        else (t.gs, t.rs)
      let p2 :=
        if p1.1.score > 200 ∧ now - p1.1.mushrooms_refreshed ≥ 15 then
          let a := add_mushrooms p1.2 p1.1 t.snek 2
          ({ a.1 with mushrooms_refreshed := now }, a.2)
        else p1
      ({ snek := t.snek, gs := p2.1 }, false)

/-- The game_state initializer of one session (lines 667-669 and
677-678): score 0, empty board, speed 100000, nothing saved, not
paused, not poisoned, both refresh clocks at session start time. -/
def init_gs (t0 : Nat) : GameState :=
  { score := 0, items := fun _ => EMPTY, speed := 100000, saved_speed := 0,
    paused := false, snacks_refreshed := t0, mushrooms_refreshed := t0,
    poisoned := false, poisoned_time := 0, last_wall_attempt := 0 }

/-- Per-session setup in main (lines 667-680): fresh snek and game
state, 20 initial snacks, then one unconditional barrier attempt
before the first loop iteration. -/
def session_start (rs : List Nat) (t0 : Nat) : Session × List Nat :=
  let sk := snek_init
  let a := add_snacks rs (init_gs t0) sk 20
  let b := try_to_add_barrier a.2 sk a.1
  ({ snek := sk, gs := b.1 }, b.2)

/-! The frame renderer (render, lines 356-499), embedded as a pure
function from its inputs to the byte list that render writes to the
output sink.  Escape sequences are spelled out as byte lists. -/

/-- One overlay message (struct message, lines 57-61); msg holds the
bytes of the string. -/
structure Message where
  row : Nat
  msg : List Nat
  colour : Nat

/-- Bytes emitted by invert (lines 321-325). -/
def invert : List Nat := [27, 91, 52, 55, 109]

/-- Bytes emitted by uninvert (lines 327-331). -/
def uninvert : List Nat := [27, 91, 109]

/-- Decimal digits of n as ASCII bytes, as sprintf %d renders them. -/
def digitsOf (n : Nat) : List Nat := (Nat.toDigits 10 n).map Char.toNat

/-- Bytes emitted by fg_colour (lines 333-340). -/
def fg_colour (colour : Nat) : List Nat :=
  [27, 91, 51, 56, 59, 53, 59] ++ digitsOf colour ++ [109]

/-- n spaces. -/
def sp (n : Nat) : List Nat := List.replicate n 32

/-- The head glyph, snek_head (lines 342-354), as a byte. -/
def snek_head (dir : Nat) : Nat :=
  match dir with
  | 0 => 94
  | 1 => 118
  | 2 => 62
  | _ => 60

/-- The score string built at line 398. -/
def score_bytes (n : Nat) : List Nat :=
  [32, 83, 99, 111, 114, 101, 58, 32] ++ digitsOf n ++ [32]

/-- The high score string built at line 405. -/
def hs_bytes (n : Nat) : List Nat :=
  [32, 72, 105, 103, 104, 32, 115, 99, 111, 114, 101, 58, 32] ++ digitsOf n ++ [32]

/-- The top bar (lines 389-425).  The padding count is an int in C and
would be negative only for absurd scores (undefined memset there); Nat
truncation is used. -/
def header_bytes (score high_score : Nat) : List Nat :=
  invert ++ sp 5 ++ uninvert ++ score_bytes score ++ invert ++
    sp ((100 - (hs_bytes high_score).length - 5) - ((score_bytes score).length + 5)) ++
    uninvert ++ hs_bytes high_score ++ invert ++ sp 5 ++ uninvert ++ [13, 10]

/-- The per-row message lookup (lines 434-442): the loop keeps the
last message whose row matches. -/
def msgFor (msgs : List Message) (r : Nat) : Option Message :=
  msgs.foldl (fun acc m => if m.row = r then some m else acc) none

/-- The item table built at lines 361-383: the calloc plus copy makes
the table agree with items everywhere, then the head cell and every
body cell are overwritten in list order. -/
def render_table (gs : GameState) (sk : Option Snek) : Nat → Nat :=
  match sk with
  | Option.none => gs.items
  | Option.some s =>
    match s.segments with
    | [] => gs.items
    | h :: body =>
      body.foldl (fun f p => fun j => if j = idxPt p then SNEK_BODY else f j)
        (fun j => if j = idxPt h then SNEK_HEAD else gs.items j)

/-- Bytes for one interior cell (lines 444-479).  msg_col is computed
in size_t arithmetic ((WIDTH - 2 - msg_len) / 2, line 440), modelled
mod 2^64.  A tag outside the switch emits nothing, as in C. -/
def cell_bytes (tbl : Nat → Nat) (dir snekColour : Nat) (msgs : List Message)
    (r c : Nat) : List Nat :=
  match msgFor msgs r with
  | Option.some m =>
    let len := m.msg.length
    let mcol := (98 + (U64 - len % U64)) % U64 / 2
    if c ≥ mcol ∧ c < mcol + len then
      fg_colour m.colour ++ [m.msg.getD (c - mcol) 0]
    else
      match tbl (r * 100 + c) with
      | 0 => [32]
      | 2 => fg_colour snekColour ++ [35]
      | 1 => fg_colour snekColour ++ [snek_head dir]
      | 4 => fg_colour 33 ++ [111]
      | 5 => invert ++ [32] ++ uninvert
      | 3 => fg_colour 99 ++ [226, 153, 163]
      | _ => []
  | Option.none =>
    match tbl (r * 100 + c) with
    | 0 => [32]
    | 2 => fg_colour snekColour ++ [35]
    | 1 => fg_colour snekColour ++ [snek_head dir]
    | 4 => fg_colour 33 ++ [111]
    | 5 => invert ++ [32] ++ uninvert
    | 3 => fg_colour 99 ++ [226, 153, 163]
    | _ => []

/-- One interior row r (lines 427-487): inverted border cell, the 98
interior cells, border cell, carriage return and newline. -/
def row_bytes (tbl : Nat → Nat) (dir snekColour : Nat) (msgs : List Message)
    (r : Nat) : List Nat :=
  invert ++ [32] ++ uninvert ++
    (List.range 98).foldr (fun c0 acc => cell_bytes tbl dir snekColour msgs r (c0 + 1) ++ acc) [] ++
    invert ++ [32] ++ uninvert ++ [13, 10]

/-- render (lines 356-499) as the byte buffer it writes: top bar, the
28 interior rows, and the bottom border row.  The snake may be absent
(title screen).  The poisoned colour switch (line 368) sits inside the
non-null items branch in C; game states always carry an item table
here.  render only reads its inputs: the buffer and the cell table it
fills are locals, so the embedding is a function. -/
def render (sk : Option Snek) (gs : GameState) (msgs : List Message)
    (high_score : Nat) : List Nat :=
  let tbl := render_table gs sk
  let snekColour := if gs.poisoned then 99 else 28
  let dir := match sk with | Option.some s => s.dir | Option.none => 0
  header_bytes gs.score high_score ++
    (List.range 28).foldr (fun r0 acc => row_bytes tbl dir snekColour msgs (r0 + 1) ++ acc) [] ++
    invert ++ sp 100 ++ uninvert ++ [13, 10]

/-! Reachability of game states: the closure of the per-session setup
under main loop iterations, with a monotone clock and rand values in
the range rand() can return. -/

/-- All oracle values lie in the int range rand() produces. -/
def randOK (rs : List Nat) : Bool := rs.all (fun x => Nat.blt x 2147483648)

/-- A session state is reachable at time t when it arises from the
setup at some start time followed by main loop iterations whose clock
never decreases and whose rand draws are legal rand() values. -/
inductive ReachableAt : Session → Nat → Prop where
  | init (rs : List Nat) (t0 : Nat) (hok : randOK rs = true) :
      ReachableAt (session_start rs t0).1 t0
  | step (st : Session) (t : Nat) (key : Key) (now : Nat) (rs : List Nat)
      (st2 : Session) (hr : ReachableAt st t) (hm : t ≤ now)
      (hok : randOK rs = true)
      (hstep : mainLoopIter st key now rs = (st2, false)) :
      ReachableAt st2 now


/-! A concrete 36-iteration play-through used to exhibit reachable
states.  The snake starts at (15, 52) facing east and never turns.
Iterations 1 to 21 each eat a snack on row 15 (columns 53 to 73), so
the speed falls from 100000 to 79000 and the score reaches 210.
Iterations 22 to 28 cross empty cells while four timed replenishments
stock seven mushrooms on the path at columns 81 to 87.  Iterations 29
to 35 eat those mushrooms back to back with the clock frozen, so the
poison never expires and the speed halves seven times down to 617.
Iteration 36 then eats one more snack at column 88: the uint32_t
speed 617 - 1000 wraps around to 4294966913. -/

/-- The two rand values that make add_item choose cell p on its first
attempt: rand % 28 + 1 = row and rand % 98 + 1 = col. -/
def pairFor (p : Nat × Nat) : List Nat := [p.1 - 1, p.2 - 1]

/-- Oracle for the per-session setup at time 1000: the 20 initial
snacks go on the path cells (15, 53) to (15, 72), and the
unconditional initial barrier is parked at row 22. -/
def rsInit : List Nat :=
  (List.range 20).foldr (fun n acc => pairFor (15, 53 + n) ++ acc) [] ++ [21, 49, 0]

/-- Clock for iteration t: one 16 second jump at iteration 1, frozen
through iteration 21, 16 second jumps on iterations 22 to 25 (firing
the snack replenishment each time and the mushroom replenishment once
the score exceeds 200), then frozen at 1080 so the poison acquired on
iteration 29 cannot expire. -/
def nowAt (t : Nat) : Nat :=
  if t ≤ 21 then 1016 else if t ≤ 25 then 1016 + 16 * (t - 21) else 1080

/-- Oracle values consumed by the barrier attempts update fires inside
iterations 32 and 34 (score 510 and 660): both barriers are parked on
row 20, far from the snake. -/
def barrierRands (t : Nat) : List Nat :=
  if t = 32 then [19, 48, 0] else if t = 34 then [19, 58, 0] else []

/-- The five cells stocked by the snack replenishment of iteration t:
iteration 1 supplies the snack eaten on iteration 21 at (15, 73) and
the snack eaten on iteration 36 at (15, 88) and parks three on row 27;
iterations 22 to 25 park all five on row 26. -/
def snackCells (t : Nat) : List (Nat × Nat) :=
  if t = 1 then [(15, 73), (15, 88), (27, 10), (27, 12), (27, 14)]
  else (List.range 5).map (fun j => (26, 10 * (t - 22) + 2 * j + 2))

/-- Oracle values for the snack replenishment of iteration t. -/
def snackRands (t : Nat) : List Nat :=
  if t = 1 ∨ (22 ≤ t ∧ t ≤ 25) then
    (snackCells t).foldr (fun p acc => pairFor p ++ acc) []
  else []

/-- The two cells stocked by the mushroom replenishment of iteration
t, for t from 22 to 25: seven mushrooms on the path at (15, 81) to
(15, 87) and one parked at (27, 20). -/
def mushCells (t : Nat) : List (Nat × Nat) :=
  if t ≤ 24 then [(15, 81 + 2 * (t - 22)), (15, 82 + 2 * (t - 22))]
  else [(15, 87), (27, 20)]

/-- Oracle values for the mushroom replenishment of iteration t. -/
def mushRands (t : Nat) : List Nat :=
  if 22 ≤ t ∧ t ≤ 25 then (mushCells t).foldr (fun p acc => pairFor p ++ acc) []
  else []

/-- One main loop iteration of the play-through: no key is ever
pressed, so the snake keeps facing east. -/
def stepAt (st : Session) (t : Nat) : Session × Bool :=
  mainLoopIter st Key.none (nowAt t) (barrierRands t ++ snackRands t ++ mushRands t)

/-- The session right after setup, at time 1000. -/
def s0 : Session := (session_start rsInit 1000).1

/-- The session after iteration 1 of the play-through. -/
def s1 : Session := (stepAt s0 1).1

/-- The session after iteration 2 of the play-through. -/
def s2 : Session := (stepAt s1 2).1

/-- The session after iteration 3 of the play-through. -/
def s3 : Session := (stepAt s2 3).1

/-- The session after iteration 4 of the play-through. -/
def s4 : Session := (stepAt s3 4).1

/-- The session after iteration 5 of the play-through. -/
def s5 : Session := (stepAt s4 5).1

/-- The session after iteration 6 of the play-through. -/
def s6 : Session := (stepAt s5 6).1

/-- The session after iteration 7 of the play-through. -/
def s7 : Session := (stepAt s6 7).1

/-- The session after iteration 8 of the play-through. -/
def s8 : Session := (stepAt s7 8).1

/-- The session after iteration 9 of the play-through. -/
def s9 : Session := (stepAt s8 9).1

/-- The session after iteration 10 of the play-through. -/
def s10 : Session := (stepAt s9 10).1

/-- The session after iteration 11 of the play-through. -/
def s11 : Session := (stepAt s10 11).1

/-- The session after iteration 12 of the play-through. -/
def s12 : Session := (stepAt s11 12).1

/-- The session after iteration 13 of the play-through. -/
def s13 : Session := (stepAt s12 13).1

/-- The session after iteration 14 of the play-through. -/
def s14 : Session := (stepAt s13 14).1

/-- The session after iteration 15 of the play-through. -/
def s15 : Session := (stepAt s14 15).1

/-- The session after iteration 16 of the play-through. -/
def s16 : Session := (stepAt s15 16).1

/-- The session after iteration 17 of the play-through. -/
def s17 : Session := (stepAt s16 17).1

/-- The session after iteration 18 of the play-through. -/
def s18 : Session := (stepAt s17 18).1

/-- The session after iteration 19 of the play-through. -/
def s19 : Session := (stepAt s18 19).1

/-- The session after iteration 20 of the play-through. -/
def s20 : Session := (stepAt s19 20).1

/-- The session after iteration 21 of the play-through. -/
def s21 : Session := (stepAt s20 21).1

/-- The session after iteration 22 of the play-through. -/
def s22 : Session := (stepAt s21 22).1

/-- The session after iteration 23 of the play-through. -/
def s23 : Session := (stepAt s22 23).1

/-- The session after iteration 24 of the play-through. -/
def s24 : Session := (stepAt s23 24).1

/-- The session after iteration 25 of the play-through. -/
def s25 : Session := (stepAt s24 25).1

/-- The session after iteration 26 of the play-through. -/
def s26 : Session := (stepAt s25 26).1

/-- The session after iteration 27 of the play-through. -/
def s27 : Session := (stepAt s26 27).1

/-- The session after iteration 28 of the play-through. -/
def s28 : Session := (stepAt s27 28).1

/-- The session after iteration 29 of the play-through. -/
def s29 : Session := (stepAt s28 29).1

/-- The session after iteration 30 of the play-through. -/
def s30 : Session := (stepAt s29 30).1

/-- The session after iteration 31 of the play-through. -/
def s31 : Session := (stepAt s30 31).1

/-- The session after iteration 32 of the play-through. -/
def s32 : Session := (stepAt s31 32).1

/-- The session after iteration 33 of the play-through. -/
def s33 : Session := (stepAt s32 33).1

/-- The session after iteration 34 of the play-through. -/
def s34 : Session := (stepAt s33 34).1

/-- The session after iteration 35 of the play-through. -/
def s35 : Session := (stepAt s34 35).1

/-! Iterated simulation steps, for the growth-arithmetic property:
one tick is one update call with the facing direction of that tick
applied first, exactly as the main loop applies a pending key before
calling update. -/

/-- Run a list of ticks (direction, clock, rand oracle). -/
def runTicks : Snek → GameState → List (Nat × Nat × List Nat) → Snek × GameState
  | sk, gs, [] => (sk, gs)
  | sk, gs, (d, now, rs) :: rest =>
    let t := update { sk with dir := d } gs now rs
    runTicks t.snek t.gs rest

/-- Count the ticks of a run whose new head lands on a snack. -/
def snackTicks : Snek → GameState → List (Nat × Nat × List Nat) → Nat
  | _, _, [] => 0
  | sk, gs, (d, now, rs) :: rest =>
    let t := update { sk with dir := d } gs now rs
    (if gs.items (idxPt (next_head { sk with dir := d })) = SNEK_SNACK then 1 else 0) +
      snackTicks t.snek t.gs rest

/-- A run in which every tick survives: update reports no game over
(no self-collision, no wall hit) and the head stays in bounds. -/
def safe_run : Snek → GameState → List (Nat × Nat × List Nat) → Bool
  | _, _, [] => true
  | sk, gs, (d, now, rs) :: rest =>
    let t := update { sk with dir := d } gs now rs
    !t.over && in_bounds t.snek && safe_run t.snek t.gs rest

/-! Concrete states used by witnesses and counterexamples. -/

/-- A board holding one snack at (5, 50), cell index 550. -/
def gs_snack550 : GameState :=
  { init_gs 0 with items := fun j => if j = 550 then SNEK_SNACK else EMPTY }

/-- A board holding one snack at (15, 53), the cell east of the
initial head. -/
def gs_snack1553 : GameState :=
  { init_gs 0 with items := fun j => if j = 1553 then SNEK_SNACK else EMPTY }

/-- A board holding one mushroom at (15, 53). -/
def gs_mush1553 : GameState :=
  { init_gs 0 with items := fun j => if j = 1553 then MUSHROOM else EMPTY }

/-- A poisoned state with a saved speed, an empty board and the poison
about to expire. -/
def gs_poisoned : GameState :=
  { init_gs 0 with poisoned := true, poisoned_time := 0, saved_speed := 70000,
                   speed := 35000 }

/-- A poisoned state whose saved_speed is 0: the shape a state takes
after a mushroom was eaten at speed 0 (speed reaches exactly 0 after
100 snacks, compare the play-through above), after which a snack eaten
while poisoned wrapped the speed to a nonzero value. -/
def gs_zero_saved : GameState :=
  { init_gs 0 with poisoned := true, poisoned_time := 100, saved_speed := 0,
                   speed := 40, items := fun j => if j = 1553 then MUSHROOM else EMPTY }

/-- Setup oracle for the initial-barrier property: 20 snacks on
column 1 of rows 1 to 20, then a barrier committed at (5, 49) to
(5, 51). -/
def rsC9 : List Nat :=
  (List.range 20).foldr (fun n acc => [n, 0] ++ acc) [] ++ [4, 49, 0]

/-! Attempt bookkeeping for the add_item characterization: attempt k
of one add_item call reads oracle values 2k and 2k + 1. -/

/-- Row chosen by attempt k. -/
def attemptRow (rs : List Nat) (k : Nat) : Nat := rs.getD (2 * k) 0 % 28 + 1

/-- Column chosen by attempt k. -/
def attemptCol (rs : List Nat) (k : Nat) : Nat := rs.getD (2 * k + 1) 0 % 98 + 1

/-- Attempt k is acceptable: its cell is not the snake head cell and
holds no item. -/
def attemptOK (rs : List Nat) (gs : GameState) (sk : Snek) (k : Nat) : Prop :=
  ¬(attemptRow rs k = sk.headPt.row ∧ attemptCol rs k = sk.headPt.col) ∧
  gs.items (attemptRow rs k * 100 + attemptCol rs k) = EMPTY

/-! Helper lemmas. -/

/-- Reading a cell after writeAll: the listed cells hold the written
tag, all others are untouched. -/
lemma writeAll_apply (ws : List Nat) (v : Nat) (f : Nat → Nat) (j : Nat) :
    writeAll ws v f j = if j ∈ ws then v else f j := by
  induction ws generalizing f with
  | nil => simp [writeAll]
  | cons w ws ih =>
    have step : writeAll (w :: ws) v f = writeAll ws v (fun j => if j = w then v else f j) := rfl
    rw [step, ih]
    by_cases hws : j ∈ ws
    · simp [hws]
    · by_cases hw : j = w <;> simp [hws, hw]

/-- Characterization of the barrier attempt loop: either the state is
returned unchanged, or some attempt produced an interior-centred
3-cell shape none of whose cells coincides with any snake segment
cell, and exactly those cells were overwritten with WALL. -/
lemma try_go_spec (fuel : Nat) :
    ∀ (rs : List Nat) (sk : Snek) (gs : GameState),
      (try_go fuel rs sk gs).1 = gs ∨
      ∃ row col shape, 1 ≤ row ∧ row ≤ 28 ∧ 1 ≤ col ∧ col ≤ 98 ∧ shape ≤ 1 ∧
        (∀ p ∈ sk.segments, ∀ w ∈ wallsOf row col shape, w ≠ idxPt p) ∧
        (try_go fuel rs sk gs).1 =
          { gs with items := writeAll (wallsOf row col shape) WALL gs.items } := by
  induction fuel with
  | zero => intro rs sk gs; exact Or.inl rfl
  | succ fuel ih =>
    intro rs sk gs
    have hunf : try_go (Nat.succ fuel) rs sk gs =
        (if sk.segments.any
            (fun p => (wallsOf (rs.getD 0 0 % 28 + 1) (rs.getD 1 0 % 98 + 1) (rs.getD 2 0 % 2)).any
              (fun w => w == idxPt p)) then
          try_go fuel (rs.drop 3) sk gs
        else ({ gs with items := writeAll (wallsOf (rs.getD 0 0 % 28 + 1) (rs.getD 1 0 % 98 + 1)
                (rs.getD 2 0 % 2)) WALL gs.items }, rs.drop 3)) := rfl
    rw [hunf]
    by_cases hover : sk.segments.any
        (fun p => (wallsOf (rs.getD 0 0 % 28 + 1) (rs.getD 1 0 % 98 + 1) (rs.getD 2 0 % 2)).any
          (fun w => w == idxPt p)) = true
    · rw [if_pos hover]
      exact ih (rs.drop 3) sk gs
    · rw [if_neg hover]
      have hfalse : sk.segments.any
          (fun p => (wallsOf (rs.getD 0 0 % 28 + 1) (rs.getD 1 0 % 98 + 1) (rs.getD 2 0 % 2)).any
            (fun w => w == idxPt p)) = false := by
        exact Bool.eq_false_iff.mpr hover
      rw [List.any_eq_false] at hfalse
      refine Or.inr ⟨rs.getD 0 0 % 28 + 1, rs.getD 1 0 % 98 + 1, rs.getD 2 0 % 2,
        ?_, ?_, ?_, ?_, ?_, ?_, rfl⟩
      · omega
      · have := Nat.mod_lt (rs.getD 0 0) (show 0 < 28 by omega); omega
      · omega
      · have := Nat.mod_lt (rs.getD 1 0) (show 0 < 98 by omega); omega
      · have := Nat.mod_lt (rs.getD 2 0) (show 0 < 2 by omega); omega
      · intro p hp w hw
        have h2f : ((wallsOf (rs.getD 0 0 % 28 + 1) (rs.getD 1 0 % 98 + 1)
            (rs.getD 2 0 % 2)).any (fun w => w == idxPt p)) = false :=
          Bool.eq_false_iff.mpr (hfalse p hp)
        rw [List.any_eq_false] at h2f
        have h3 := h2f w hw
        simpa using h3

/-- Cell membership in a 3-cell shape implies the index is inside the
HEIGHT times WIDTH item table. -/
lemma wallsOf_mem_lt (row col shape w : Nat) (h1 : 1 ≤ row) (h2 : row ≤ 28)
    (h3 : 1 ≤ col) (h4 : col ≤ 98) (hw : w ∈ wallsOf row col shape) : w < 3000 := by
  unfold wallsOf at hw
  by_cases hs : shape = 0
  · rw [if_pos hs] at hw
    simp only [List.mem_cons, List.mem_singleton, List.not_mem_nil, or_false] at hw
    rcases hw with h | h | h <;> omega
  · rw [if_neg hs] at hw
    simp only [List.mem_cons, List.mem_singleton, List.not_mem_nil, or_false] at hw
    rcases hw with h | h | h <;> omega

/-- If try_to_add_barrier changed a cell, then it wrote WALL there,
the cell is no snake segment cell, and the index is in range. -/
lemma try_go_changed (fuel : Nat) (rs : List Nat) (sk : Snek) (gs : GameState) (j : Nat)
    (hch : (try_go fuel rs sk gs).1.items j ≠ gs.items j) :
    (try_go fuel rs sk gs).1.items j = WALL ∧ (∀ p ∈ sk.segments, idxPt p ≠ j) ∧ j < 3000 := by
  rcases try_go_spec fuel rs sk gs with heq | ⟨row, col, shape, h1, h2, h3, h4, h5, havoid, heq⟩
  · rw [heq] at hch
    exact absurd rfl hch
  · rw [heq] at hch ⊢
    simp only at hch ⊢
    rw [writeAll_apply] at hch ⊢
    by_cases hmem : j ∈ wallsOf row col shape
    · refine ⟨by rw [if_pos hmem], ?_, wallsOf_mem_lt row col shape j h1 h2 h3 h4 hmem⟩
      intro p hp
      exact fun hji => (havoid p hp j hmem) hji.symm
    · rw [if_neg hmem] at hch
      exact absurd rfl hch

/-- try_to_add_barrier changes nothing but the item table. -/
lemma try_go_fields (fuel : Nat) (rs : List Nat) (sk : Snek) (gs : GameState) :
    (try_go fuel rs sk gs).1.score = gs.score ∧
    (try_go fuel rs sk gs).1.speed = gs.speed ∧
    (try_go fuel rs sk gs).1.saved_speed = gs.saved_speed ∧
    (try_go fuel rs sk gs).1.poisoned = gs.poisoned ∧
    (try_go fuel rs sk gs).1.poisoned_time = gs.poisoned_time ∧
    (try_go fuel rs sk gs).1.last_wall_attempt = gs.last_wall_attempt := by
  rcases try_go_spec fuel rs sk gs with heq | ⟨row, col, shape, _, _, _, _, _, _, heq⟩ <;>
    rw [heq] <;> exact ⟨rfl, rfl, rfl, rfl, rfl, rfl⟩

/-- A segment cell is never overwritten by try_to_add_barrier. -/
lemma try_go_items_of_mem (fuel : Nat) (rs : List Nat) (sk : Snek) (gs : GameState)
    (p : Pt) (hp : p ∈ sk.segments) :
    (try_go fuel rs sk gs).1.items (idxPt p) = gs.items (idxPt p) := by
  by_cases hch : (try_go fuel rs sk gs).1.items (idxPt p) = gs.items (idxPt p)
  · exact hch
  · rcases try_go_changed fuel rs sk gs (idxPt p) hch with ⟨_, havoid, _⟩
    exact absurd rfl (havoid p hp)

/-- update_after never changes the segment list or direction it is
given. -/
lemma update_after_snek (segs : List Pt) (d : Nat) (gs : GameState) (rs : List Nat) :
    (update_after segs d gs rs).snek = { segments := segs, dir := d } := by
  unfold update_after
  split_ifs <;> rfl

/-- The bool produced by update_after is exactly the self-collision
scan. -/
lemma update_after_over (segs : List Pt) (d : Nat) (gs : GameState) (rs : List Nat) :
    (update_after segs d gs rs).over = hits_self (segs.headD ⟨0, 0⟩) segs.tail := by
  unfold update_after
  by_cases h : hits_self (segs.headD ⟨0, 0⟩) segs.tail = true
  · rw [if_pos h, h]
  · rw [if_neg h]
    rw [Bool.eq_false_iff.mpr h]
    split_ifs <;> rfl

/-- update_after preserves score, speed, saved speed and the poison
fields (the barrier branch touches only items and the checkpoint). -/
lemma update_after_fields (segs : List Pt) (d : Nat) (gs : GameState) (rs : List Nat) :
    (update_after segs d gs rs).gs.score = gs.score ∧
    (update_after segs d gs rs).gs.speed = gs.speed ∧
    (update_after segs d gs rs).gs.saved_speed = gs.saved_speed ∧
    (update_after segs d gs rs).gs.poisoned = gs.poisoned ∧
    (update_after segs d gs rs).gs.poisoned_time = gs.poisoned_time := by
  unfold update_after
  split_ifs with h1 h2
  · exact ⟨rfl, rfl, rfl, rfl, rfl⟩
  · have hf := try_go_fields 3 rs { segments := segs, dir := d } gs
    exact ⟨hf.1, hf.2.1, hf.2.2.1, hf.2.2.2.1, hf.2.2.2.2.1⟩
  · exact ⟨rfl, rfl, rfl, rfl, rfl⟩

/-- update_after never changes the item tag of a cell occupied by one
of the segments it is given. -/
lemma update_after_items_of_mem (segs : List Pt) (d : Nat) (gs : GameState)
    (rs : List Nat) (p : Pt) (hp : p ∈ segs) :
    (update_after segs d gs rs).gs.items (idxPt p) = gs.items (idxPt p) := by
  unfold update_after
  split_ifs with h1 h2
  · rfl
  · exact try_go_items_of_mem 3 rs { segments := segs, dir := d } gs p hp
  · rfl

/-- poison_restore is the identity when poison is not due to expire. -/
lemma poison_restore_no (gs : GameState) (now : Nat)
    (hnp : ¬(gs.poisoned = true ∧ now - gs.poisoned_time ≥ POISON_DURATION)) :
    poison_restore gs now = gs := if_neg hnp

/-- Unfolding update in the snack branch. -/
lemma update_snack (h : Pt) (rest : List Pt) (d : Nat) (gs0 : GameState)
    (now : Nat) (rs : List Nat)
    (hnp : ¬(gs0.poisoned = true ∧ now - gs0.poisoned_time ≥ POISON_DURATION))
    (hsnack : gs0.items (idxPt (next_head ⟨h :: rest, d⟩)) = SNEK_SNACK) :
    update ⟨h :: rest, d⟩ gs0 now rs =
      update_after
        ((next_head ⟨h :: rest, d⟩ :: List.dropLast (h :: rest)) ++
          [(next_head ⟨h :: rest, d⟩ :: List.dropLast (h :: rest)).getLastD ⟨0, 0⟩,
           (next_head ⟨h :: rest, d⟩ :: List.dropLast (h :: rest)).getLastD ⟨0, 0⟩,
           (next_head ⟨h :: rest, d⟩ :: List.dropLast (h :: rest)).getLastD ⟨0, 0⟩]) d
        { gs0 with score := (gs0.score + 10) % U32,
                   speed := (gs0.speed + (U32 - 1000)) % U32,
                   items := fun j =>
                     if j = idxPt (next_head ⟨h :: rest, d⟩) then EMPTY else gs0.items j } rs := by
  simp only [update, poison_restore_no gs0 now hnp, hsnack]
  exact if_pos trivial

/-- Unfolding update in the mushroom branch. -/
lemma update_mushroom (h : Pt) (rest : List Pt) (d : Nat) (gs0 : GameState)
    (now : Nat) (rs : List Nat)
    (hnp : ¬(gs0.poisoned = true ∧ now - gs0.poisoned_time ≥ POISON_DURATION))
    (hmush : gs0.items (idxPt (next_head ⟨h :: rest, d⟩)) = MUSHROOM) :
    update ⟨h :: rest, d⟩ gs0 now rs =
      update_after (next_head ⟨h :: rest, d⟩ :: List.dropLast (h :: rest)) d
        { gs0 with score := (gs0.score + 75) % U32,
                   saved_speed := if gs0.saved_speed = 0 then gs0.speed else gs0.saved_speed,
                   speed := gs0.speed / 2,
                   items := fun j =>
                     if j = idxPt (next_head ⟨h :: rest, d⟩) then EMPTY else gs0.items j,
                   poisoned := true, poisoned_time := now } rs := by
  simp only [update, poison_restore_no gs0 now hnp, hmush]
  rw [if_neg (show ¬(MUSHROOM = SNEK_SNACK) by decide)]
  exact if_pos trivial

/-- Unfolding update when the new head lands on a cell that holds no
snack, no mushroom and no wall. -/
lemma update_other (h : Pt) (rest : List Pt) (d : Nat) (gs0 : GameState)
    (now : Nat) (rs : List Nat)
    (hnp : ¬(gs0.poisoned = true ∧ now - gs0.poisoned_time ≥ POISON_DURATION))
    (h1 : gs0.items (idxPt (next_head ⟨h :: rest, d⟩)) ≠ SNEK_SNACK)
    (h2 : gs0.items (idxPt (next_head ⟨h :: rest, d⟩)) ≠ MUSHROOM)
    (h3 : gs0.items (idxPt (next_head ⟨h :: rest, d⟩)) ≠ WALL) :
    update ⟨h :: rest, d⟩ gs0 now rs =
      update_after (next_head ⟨h :: rest, d⟩ :: List.dropLast (h :: rest)) d gs0 rs := by
  simp only [update, poison_restore_no gs0 now hnp]
  rw [if_neg h1, if_neg h2, if_neg h3]

/-- Unfolding update when the new head lands on a wall cell: game over
at once, with the snake already advanced. -/
lemma update_wall (h : Pt) (rest : List Pt) (d : Nat) (gs0 : GameState)
    (now : Nat) (rs : List Nat)
    (hnp : ¬(gs0.poisoned = true ∧ now - gs0.poisoned_time ≥ POISON_DURATION))
    (hwall : gs0.items (idxPt (next_head ⟨h :: rest, d⟩)) = WALL) :
    update ⟨h :: rest, d⟩ gs0 now rs =
      { snek := { segments := next_head ⟨h :: rest, d⟩ :: List.dropLast (h :: rest), dir := d },
        gs := gs0, over := true, rs := rs } := by
  simp only [update, poison_restore_no gs0 now hnp, hwall]
  rw [if_neg (show ¬(WALL = SNEK_SNACK) by decide),
    if_neg (show ¬(WALL = MUSHROOM) by decide)]
  exact if_pos trivial

/-- Poison expiry never touches the item table. -/
lemma poison_restore_items (gs : GameState) (now : Nat) :
    (poison_restore gs now).items = gs.items := by
  unfold poison_restore
  split_ifs <;> rfl

/-- Whatever branch update takes, the resulting segment list is the
advanced list (new head in front, old tail dropped), possibly extended
at the tail by the growth copies, and the direction is unchanged. -/
lemma update_segments (h : Pt) (rest : List Pt) (d : Nat) (gs0 : GameState)
    (now : Nat) (rs : List Nat) :
    ∃ ext, (update ⟨h :: rest, d⟩ gs0 now rs).snek =
      { segments := (next_head ⟨h :: rest, d⟩ :: List.dropLast (h :: rest)) ++ ext,
        dir := d } := by
  simp only [update]
  by_cases c1 : (poison_restore gs0 now).items (idxPt (next_head ⟨h :: rest, d⟩)) = SNEK_SNACK
  · rw [if_pos c1]
    exact ⟨_, by rw [update_after_snek]⟩
  · rw [if_neg c1]
    by_cases c2 : (poison_restore gs0 now).items (idxPt (next_head ⟨h :: rest, d⟩)) = MUSHROOM
    · rw [if_pos c2]
      refine ⟨[], ?_⟩
      rw [update_after_snek]
      simp
    · rw [if_neg c2]
      by_cases c3 : (poison_restore gs0 now).items (idxPt (next_head ⟨h :: rest, d⟩)) = WALL
      · rw [if_pos c3]
        exact ⟨[], by simp⟩
      · rw [if_neg c3]
        refine ⟨[], ?_⟩
        rw [update_after_snek]
        simp

/-- Dropping two oracle values shifts getD by two. -/
lemma getD_drop2 (rs : List Nat) (n : Nat) :
    (rs.drop 2).getD n 0 = rs.getD (n + 2) 0 := by
  match rs with
  | [] => simp
  | [a] => simp [List.getD]
  | a :: b :: t => simp [List.getD]

/-- Dropping two oracle values shifts the attempt index by one. -/
lemma attemptOK_drop2 (rs : List Nat) (gs : GameState) (sk : Snek) (k : Nat) :
    attemptOK (rs.drop 2) gs sk k ↔ attemptOK rs gs sk (k + 1) := by
  unfold attemptOK attemptRow attemptCol
  rw [getD_drop2, getD_drop2]
  have e1 : 2 * k + 2 = 2 * (k + 1) := by omega
  have e2 : 2 * k + 1 + 2 = 2 * (k + 1) + 1 := by omega
  rw [e1, e2]

/-- Characterization of add_item: either no attempt within the fuel
budget is acceptable and the state is returned unchanged, or the first
acceptable attempt k commits the item to its cell, a cell that is
interior, Empty, and not the snake head cell. -/
lemma add_item_go_spec (fuel : Nat) :
    ∀ (rs : List Nat) (gs : GameState) (sk : Snek) (item : Nat),
      ((∀ j, j < fuel → ¬ attemptOK rs gs sk j) ∧ (add_item_go fuel rs gs sk item).1 = gs) ∨
      (∃ k, k < fuel ∧ (∀ j, j < k → ¬ attemptOK rs gs sk j) ∧ attemptOK rs gs sk k ∧
        (add_item_go fuel rs gs sk item).1 =
          { gs with items := fun j =>
              if j = attemptRow rs k * 100 + attemptCol rs k then item else gs.items j }) := by
  induction fuel with
  | zero =>
    intro rs gs sk item
    exact Or.inl ⟨fun j hj => absurd hj (Nat.not_lt_zero j), rfl⟩
  | succ fuel ih =>
    intro rs gs sk item
    have hrow0 : rs.getD 0 0 % 28 + 1 = attemptRow rs 0 := by unfold attemptRow; norm_num
    have hcol0 : rs.getD 1 0 % 98 + 1 = attemptCol rs 0 := by unfold attemptCol; norm_num
    have hunf : add_item_go (Nat.succ fuel) rs gs sk item =
        (if attemptRow rs 0 = sk.headPt.row ∧ attemptCol rs 0 = sk.headPt.col then
          add_item_go fuel (rs.drop 2) gs sk item
        else if gs.items (attemptRow rs 0 * 100 + attemptCol rs 0) ≠ EMPTY then
          add_item_go fuel (rs.drop 2) gs sk item
        else
          ({ gs with items := fun j =>
              if j = attemptRow rs 0 * 100 + attemptCol rs 0 then item else gs.items j },
            rs.drop 2)) := by
      rw [← hrow0, ← hcol0]
      rfl
    rw [hunf]
    by_cases chead : attemptRow rs 0 = sk.headPt.row ∧ attemptCol rs 0 = sk.headPt.col
    · rw [if_pos chead]
      have hnot0 : ¬ attemptOK rs gs sk 0 := fun hok => hok.1 chead
      rcases ih (rs.drop 2) gs sk item with ⟨hall, heq⟩ | ⟨k, hk, hfirst, hok, heq⟩
      · refine Or.inl ⟨?_, heq⟩
        intro j hj
        match j with
        | 0 => exact hnot0
        | Nat.succ j =>
          intro hok
          exact hall j (by omega) ((attemptOK_drop2 rs gs sk j).mpr hok)
      · refine Or.inr ⟨k + 1, by omega, ?_, (attemptOK_drop2 rs gs sk k).mp hok, ?_⟩
        · intro j hj
          match j with
          | 0 => exact hnot0
          | Nat.succ j =>
            intro hokj
            exact hfirst j (by omega) ((attemptOK_drop2 rs gs sk j).mpr hokj)
        · rw [heq]
          have : attemptRow (rs.drop 2) k = attemptRow rs (k + 1) := by
            unfold attemptRow
            rw [getD_drop2]
            have : 2 * k + 2 = 2 * (k + 1) := by omega
            rw [this]
          rw [this]
          have : attemptCol (rs.drop 2) k = attemptCol rs (k + 1) := by
            unfold attemptCol
            rw [getD_drop2]
            have : 2 * k + 1 + 2 = 2 * (k + 1) + 1 := by omega
            rw [this]
          rw [this]
    · rw [if_neg chead]
      by_cases cempty : gs.items (attemptRow rs 0 * 100 + attemptCol rs 0) ≠ EMPTY
      · rw [if_pos cempty]
        have hnot0 : ¬ attemptOK rs gs sk 0 := fun hok => cempty hok.2
        rcases ih (rs.drop 2) gs sk item with ⟨hall, heq⟩ | ⟨k, hk, hfirst, hok, heq⟩
        · refine Or.inl ⟨?_, heq⟩
          intro j hj
          match j with
          | 0 => exact hnot0
          | Nat.succ j =>
            intro hokj
            exact hall j (by omega) ((attemptOK_drop2 rs gs sk j).mpr hokj)
        · refine Or.inr ⟨k + 1, by omega, ?_, (attemptOK_drop2 rs gs sk k).mp hok, ?_⟩
          · intro j hj
            match j with
            | 0 => exact hnot0
            | Nat.succ j =>
              intro hokj
              exact hfirst j (by omega) ((attemptOK_drop2 rs gs sk j).mpr hokj)
          · rw [heq]
            have e1 : attemptRow (rs.drop 2) k = attemptRow rs (k + 1) := by
              unfold attemptRow
              rw [getD_drop2]
              have : 2 * k + 2 = 2 * (k + 1) := by omega
              rw [this]
            have e2 : attemptCol (rs.drop 2) k = attemptCol rs (k + 1) := by
              unfold attemptCol
              rw [getD_drop2]
              have : 2 * k + 1 + 2 = 2 * (k + 1) + 1 := by omega
              rw [this]
            rw [e1, e2]
      · rw [if_neg cempty]
        push_neg at cempty
        exact Or.inr ⟨0, by omega, fun j hj => absurd hj (Nat.not_lt_zero j),
          ⟨chead, cempty⟩, rfl⟩

/-- One tick changes the segment count by exactly 3 when the new head
lands on a snack and by 0 otherwise. -/
lemma update_length (h : Pt) (rest : List Pt) (d : Nat) (gs0 : GameState)
    (now : Nat) (rs : List Nat) :
    (update ⟨h :: rest, d⟩ gs0 now rs).snek.segments.length =
      (h :: rest).length +
        (if gs0.items (idxPt (next_head ⟨h :: rest, d⟩)) = SNEK_SNACK then 3 else 0) := by
  have hitems := poison_restore_items gs0 now
  simp only [update, hitems]
  by_cases c1 : gs0.items (idxPt (next_head ⟨h :: rest, d⟩)) = SNEK_SNACK
  · rw [if_pos c1, if_pos c1, update_after_snek]
    simp [List.length_dropLast]
  · rw [if_neg c1, if_neg c1]
    by_cases c2 : gs0.items (idxPt (next_head ⟨h :: rest, d⟩)) = MUSHROOM
    · rw [if_pos c2, update_after_snek]
      simp [List.length_dropLast]
    · rw [if_neg c2]
      by_cases c3 : gs0.items (idxPt (next_head ⟨h :: rest, d⟩)) = WALL
      · rw [if_pos c3]
        simp [List.length_dropLast]
      · rw [if_neg c3, update_after_snek]
        simp [List.length_dropLast]

/-- Tick sequences preserve nonemptiness of the segment list. -/
lemma update_ne_nil (h : Pt) (rest : List Pt) (d : Nat) (gs0 : GameState)
    (now : Nat) (rs : List Nat) :
    (update ⟨h :: rest, d⟩ gs0 now rs).snek.segments ≠ [] := by
  have hl := update_length h rest d gs0 now rs
  intro hnil
  rw [hnil] at hl
  simp only [List.length_nil, List.length_cons] at hl
  split_ifs at hl <;> omega

/-- Growth arithmetic over a run: the segment count after a run is the
count before plus 3 for every snack tick. -/
lemma runTicks_length (inputs : List (Nat × Nat × List Nat)) :
    ∀ (sk : Snek) (gs : GameState), sk.segments ≠ [] →
      (runTicks sk gs inputs).1.segments.length =
        sk.segments.length + 3 * snackTicks sk gs inputs := by
  induction inputs with
  | nil => intro sk gs _; simp [runTicks, snackTicks]
  | cons input rest ih =>
    intro sk gs hne
    obtain ⟨d, now, rs⟩ := input
    obtain ⟨segs, d0⟩ := sk
    match segs, hne with
    | h :: tail, _ =>
      have hstep := update_length h tail d gs now rs
      have hrun : runTicks ⟨h :: tail, d0⟩ gs ((d, now, rs) :: rest) =
          runTicks (update ⟨h :: tail, d⟩ gs now rs).snek
            (update ⟨h :: tail, d⟩ gs now rs).gs rest := rfl
      have hcnt : snackTicks ⟨h :: tail, d0⟩ gs ((d, now, rs) :: rest) =
          (if gs.items (idxPt (next_head ⟨h :: tail, d⟩)) = SNEK_SNACK then 1 else 0) +
            snackTicks (update ⟨h :: tail, d⟩ gs now rs).snek
              (update ⟨h :: tail, d⟩ gs now rs).gs rest := rfl
      rw [hrun, hcnt]
      have hne2 : (update ⟨h :: tail, d⟩ gs now rs).snek.segments ≠ [] :=
        update_ne_nil h tail d gs now rs
      rw [ih _ _ hne2, hstep]
      by_cases hc : gs.items (idxPt (next_head ⟨h :: tail, d⟩)) = SNEK_SNACK
      · rw [if_pos hc, if_pos hc]; ring
      · rw [if_neg hc, if_neg hc]; ring

/-- Poison expiry when it fires. -/
lemma poison_restore_yes (gs : GameState) (now : Nat) (hp : gs.poisoned = true)
    (hd : now - gs.poisoned_time ≥ POISON_DURATION) :
    poison_restore gs now =
      { gs with poisoned := false, speed := gs.saved_speed, saved_speed := 0 } :=
  if_pos ⟨hp, hd⟩

/-- add_item never changes the score. -/
lemma add_item_score (rs : List Nat) (gs : GameState) (sk : Snek) (item : Nat) :
    (add_item rs gs sk item).1.score = gs.score := by
  have hdef : add_item rs gs sk item = add_item_go 100 rs gs sk item := rfl
  rw [hdef]
  rcases add_item_go_spec 100 rs gs sk item with ⟨_, heq⟩ | ⟨k, _, _, _, heq⟩ <;>
    rw [heq]

/-- add_snacks never changes the score. -/
lemma add_snacks_score (count : Nat) :
    ∀ (rs : List Nat) (gs : GameState) (sk : Snek),
      (add_snacks rs gs sk count).1.score = gs.score := by
  induction count with
  | zero => intro rs gs sk; rfl
  | succ n ih =>
    intro rs gs sk
    have hunf : add_snacks rs gs sk (Nat.succ n) =
        add_snacks (add_item rs gs sk SNEK_SNACK).2 (add_item rs gs sk SNEK_SNACK).1 sk n := rfl
    rw [hunf, ih, add_item_score]

/-- When the new head does not land on a wall, the bool returned by
update is exactly the self-collision scan of the new head against the
updated body. -/
lemma update_over_eq (h : Pt) (rest : List Pt) (d : Nat) (gs0 : GameState)
    (now : Nat) (rs : List Nat)
    (hwall : gs0.items (idxPt (next_head ⟨h :: rest, d⟩)) ≠ WALL) :
    (update ⟨h :: rest, d⟩ gs0 now rs).over =
      hits_self (next_head ⟨h :: rest, d⟩)
        (update ⟨h :: rest, d⟩ gs0 now rs).snek.segments.tail := by
  simp only [update, poison_restore_items]
  by_cases c1 : gs0.items (idxPt (next_head ⟨h :: rest, d⟩)) = SNEK_SNACK
  · rw [if_pos c1, update_after_over, update_after_snek]
    rfl
  · rw [if_neg c1]
    by_cases c2 : gs0.items (idxPt (next_head ⟨h :: rest, d⟩)) = MUSHROOM
    · rw [if_pos c2, update_after_over, update_after_snek]
      rfl
    · rw [if_neg c2, if_neg hwall, update_after_over, update_after_snek]
      rfl

/-- 32-bit unsigned decrement below the modulus. -/
lemma wrap_dec (x : Nat) (h1 : 1 ≤ x) (h2 : x < U32) :
    (x + (U32 - 1)) % U32 = x - 1 := by
  have hU : U32 = 4294967296 := rfl
  rw [hU] at h2 ⊢
  omega

/-- 32-bit unsigned increment below the modulus. -/
lemma wrap_inc (x : Nat) (h2 : x + 1 < U32) : (x + 1) % U32 = x + 1 := by
  have hU : U32 = 4294967296 := rfl
  rw [hU] at h2 ⊢
  omega

/-- In every branch, the advanced list keeps the new head first and
the old head second (the old list had at least two segments). -/
lemma update_head_second (h : Pt) (rest : List Pt) (d : Nat) (gs : GameState)
    (now : Nat) (rs : List Nat) (hne : rest ≠ []) :
    (update ⟨h :: rest, d⟩ gs now rs).snek.segments[0]? =
      some (next_head ⟨h :: rest, d⟩) ∧
    (update ⟨h :: rest, d⟩ gs now rs).snek.segments[1]? = some h := by
  obtain ⟨ext, hseg⟩ := update_segments h rest d gs now rs
  rw [hseg]
  match rest, hne with
  | r :: rest2, _ =>
    rw [List.dropLast_cons₂]
    constructor <;>
      simp [List.cons_append, List.getElem?_cons_zero, List.getElem?_cons_succ]

/-! Claim theorems. -/

/-- Claim C2, counterexample: try_to_add_barrier inspects only the
snake, not the board, so a committed wall cell may hold a non-Empty
tag at commit time.  With the snake in its initial position and a
snack at cell (5, 50) (index 550), the oracle 4, 49, 0 centres a
horizontal shape on that very cell; no snake segment overlaps, so the
shape is committed and the snack is overwritten by WALL. -/
theorem C2_counterexample :
    gs_snack550.items 550 = SNEK_SNACK ∧ SNEK_SNACK ≠ EMPTY ∧
    (try_to_add_barrier [4, 49, 0] snek_init gs_snack550).1.items 550 = WALL :=
  ⟨rfl, by decide, rfl⟩

/-- Claim C2 (amended): for every call of try_to_add_barrier and every
attempt, every cell the call commits (changes) is written as WALL and
coincides with no snake segment cell at commit time; the board tags of
the three cells are not inspected, so a committed cell may previously
have held a Snack, PowerItem or Obstacle tag, which is overwritten. -/
theorem C2_commit_avoids_snake (rs : List Nat) (sk : Snek) (gs : GameState) (j : Nat)
    (hch : (try_to_add_barrier rs sk gs).1.items j ≠ gs.items j) :
    (try_to_add_barrier rs sk gs).1.items j = WALL ∧ ∀ p ∈ sk.segments, idxPt p ≠ j := by
  have h := try_go_changed 3 rs sk gs j hch
  exact ⟨h.1, h.2.1⟩

/-- Witness for C2_commit_avoids_snake at the concrete commit of
C2_counterexample. -/
theorem C2_witness :
    (try_to_add_barrier [4, 49, 0] snek_init gs_snack550).1.items 550 = WALL ∧
    ∀ p ∈ snek_init.segments, idxPt p ≠ 550 :=
  C2_commit_avoids_snake [4, 49, 0] snek_init gs_snack550 550 (by decide)

/-- Claim C10: every cell try_to_add_barrier commits lies inside the
HEIGHT times WIDTH item table (index below 3000), but the end cells of
a shape are not confined to the interior: with the random centre in
the first interior row and the vertical shape, the upper end cell
lands on the border ring, here cell (0, 50) of row 0. -/
theorem C10_barrier_bounds :
    (∀ (rs : List Nat) (sk : Snek) (gs : GameState) (j : Nat),
      (try_to_add_barrier rs sk gs).1.items j ≠ gs.items j → j < 3000) ∧
    (try_to_add_barrier [0, 49, 1] snek_init (init_gs 0)).1.items (idxPt ⟨0, 50⟩) = WALL ∧
    (init_gs 0).items (idxPt ⟨0, 50⟩) = EMPTY := by
  refine ⟨?_, rfl, rfl⟩
  intro rs sk gs j hch
  exact (try_go_changed 3 rs sk gs j hch).2.2

/-- Witness for C10_barrier_bounds at the concrete commit of
C2_counterexample. -/
theorem C10_witness : 550 < 3000 :=
  C10_barrier_bounds.1 [4, 49, 0] snek_init gs_snack550 550 (by decide)

/-- Claim C9 (implicit): at the start of every session, after the 20
initial snacks are placed and before the first loop iteration runs,
one obstacle placement is attempted unconditionally while the score is
0 (the per-session setup is add_snacks 20 followed by exactly one
try_to_add_barrier, and neither changes the score), so an obstacle can
already be on the board when play begins, independently of the
score-threshold rule inside update: under the concrete setup oracle
rsC9 the initial board already holds a WALL at cell (5, 50). -/
theorem C9_initial_barrier :
    (∀ (rs : List Nat) (t0 : Nat),
      (add_snacks rs (init_gs t0) snek_init 20).1.score = 0 ∧
      (session_start rs t0).1.gs.score = 0) ∧
    (session_start rsC9 0).1.gs.items 550 = WALL := by
  refine ⟨?_, rfl⟩
  intro rs t0
  have h1 : (add_snacks rs (init_gs t0) snek_init 20).1.score = 0 := by
    rw [add_snacks_score]; rfl
  refine ⟨h1, ?_⟩
  simp only [session_start, try_to_add_barrier]
  rw [(try_go_fields 3 _ _ _).1, h1]

/-- Claim C8: the renderer is a pure function of board items, snake,
session state, overlay messages and high score: two calls with
identical inputs construct byte-identical output buffers, and in this
embedding render is a function that only reads its inputs (the C code
writes only its local buffer and cell table), so it mutates none of
them. -/
theorem C8_render_det (sk1 sk2 : Option Snek) (gs1 gs2 : GameState)
    (m1 m2 : List Message) (hs1 hs2 : Nat)
    (hsk : sk1 = sk2) (hgs : gs1 = gs2) (hm : m1 = m2) (hh : hs1 = hs2) :
    render sk1 gs1 m1 hs1 = render sk2 gs2 m2 hs2 := by
  rw [hsk, hgs, hm, hh]

/-- Witness for C8_render_det on the initial snake and an empty
session. -/
theorem C8_witness :
    render (some snek_init) (init_gs 0) [] 0 = render (some snek_init) (init_gs 0) [] 0 :=
  C8_render_det (some snek_init) (some snek_init) (init_gs 0) (init_gs 0) [] [] 0 0
    rfl rfl rfl rfl

/-- Claim C7: every add_item call either leaves the whole game state
unchanged (when none of its at most 100 attempts is acceptable - the
silent bounded give-up), or commits the item at the first acceptable
attempt: a cell that is interior (row 1 to 28, column 1 to 98), holds
Empty, and is not the snake head cell; the embedding is a total
function, so the call never errors and never loops unboundedly. -/
theorem C7_add_item_spec (rs : List Nat) (gs : GameState) (sk : Snek) (item : Nat) :
    ((∀ j, j < 100 → ¬ attemptOK rs gs sk j) ∧ (add_item rs gs sk item).1 = gs) ∨
    (∃ k, k < 100 ∧ (∀ j, j < k → ¬ attemptOK rs gs sk j) ∧ attemptOK rs gs sk k ∧
      1 ≤ attemptRow rs k ∧ attemptRow rs k ≤ 28 ∧
      1 ≤ attemptCol rs k ∧ attemptCol rs k ≤ 98 ∧
      (add_item rs gs sk item).1 =
        { gs with items := fun j =>
            if j = attemptRow rs k * 100 + attemptCol rs k then item else gs.items j }) := by
  have hdef : add_item rs gs sk item = add_item_go 100 rs gs sk item := rfl
  rw [hdef]
  rcases add_item_go_spec 100 rs gs sk item with hL | ⟨k, hk, hfirst, hok, heq⟩
  · exact Or.inl hL
  · refine Or.inr ⟨k, hk, hfirst, hok, ?_, ?_, ?_, ?_, heq⟩
    · unfold attemptRow; omega
    · unfold attemptRow
      have := Nat.mod_lt (rs.getD (2 * k) 0) (show 0 < 28 by omega)
      omega
    · unfold attemptCol; omega
    · unfold attemptCol
      have := Nat.mod_lt (rs.getD (2 * k + 1) 0) (show 0 < 98 by omega)
      omega

/-- Claim C6: after advancing (and when the new head does not land on
a wall, which ends the game before the scan), update reports a
collision if and only if the new head position equals the position of
some segment of the updated body (the segments after the new head);
in particular the scan on the body [(5,5), (5,4), (5,3), (5,6)]
reports a collision for a new head at (5,4) and at (5,3) and none for
a new head at (4,6). -/
theorem C6_self_collision :
    (∀ (h : Pt) (rest : List Pt) (d : Nat) (gs : GameState) (now : Nat) (rs : List Nat),
      gs.items (idxPt (next_head ⟨h :: rest, d⟩)) ≠ WALL →
      ((update ⟨h :: rest, d⟩ gs now rs).over = true ↔
        ∃ p ∈ (update ⟨h :: rest, d⟩ gs now rs).snek.segments.tail,
          p.row = (next_head ⟨h :: rest, d⟩).row ∧ p.col = (next_head ⟨h :: rest, d⟩).col)) ∧
    hits_self ⟨5, 4⟩ [⟨5, 5⟩, ⟨5, 4⟩, ⟨5, 3⟩, ⟨5, 6⟩] = true ∧
    hits_self ⟨5, 3⟩ [⟨5, 5⟩, ⟨5, 4⟩, ⟨5, 3⟩, ⟨5, 6⟩] = true ∧
    hits_self ⟨4, 6⟩ [⟨5, 5⟩, ⟨5, 4⟩, ⟨5, 3⟩, ⟨5, 6⟩] = false := by
  refine ⟨?_, by decide, by decide, by decide⟩
  intro h rest d gs now rs hwall
  rw [update_over_eq h rest d gs now rs hwall]
  simp [hits_self, List.any_eq_true, Bool.and_eq_true, beq_iff_eq]

/-- Witness for the update-level part of C6_self_collision on the
initial snake over an empty board. -/
theorem C6_witness :
    (update ⟨⟨15, 52⟩ :: [⟨15, 51⟩], 2⟩ (init_gs 0) 0 []).over = true ↔
      ∃ p ∈ (update ⟨⟨15, 52⟩ :: [⟨15, 51⟩], 2⟩ (init_gs 0) 0 []).snek.segments.tail,
        p.row = (next_head ⟨⟨15, 52⟩ :: [⟨15, 51⟩], 2⟩).row ∧
        p.col = (next_head ⟨⟨15, 52⟩ :: [⟨15, 51⟩], 2⟩).col :=
  C6_self_collision.1 ⟨15, 52⟩ [⟨15, 51⟩] 2 (init_gs 0) 0 [] (by decide)

/-- Claim C5: for every snake state of at least two segments whose
head coordinates allow the move without 32-bit wraparound, the advance
step yields the new head per the fixed table North (-1, 0),
South (1, 0), East (0, 1), West (0, -1) applied to the old head
(r, c), and the old head becomes the second segment of the body. -/
theorem C5_advance_table (h : Pt) (rest : List Pt) (gs : GameState) (now : Nat)
    (rs : List Nat) (hne : rest ≠ []) (hr1 : 1 ≤ h.row) (hr2 : h.row + 1 < U32)
    (hc1 : 1 ≤ h.col) (hc2 : h.col + 1 < U32) :
    ((update ⟨h :: rest, 0⟩ gs now rs).snek.segments[0]? = some ⟨h.row - 1, h.col⟩ ∧
     (update ⟨h :: rest, 0⟩ gs now rs).snek.segments[1]? = some h) ∧
    ((update ⟨h :: rest, 1⟩ gs now rs).snek.segments[0]? = some ⟨h.row + 1, h.col⟩ ∧
     (update ⟨h :: rest, 1⟩ gs now rs).snek.segments[1]? = some h) ∧
    ((update ⟨h :: rest, 2⟩ gs now rs).snek.segments[0]? = some ⟨h.row, h.col + 1⟩ ∧
     (update ⟨h :: rest, 2⟩ gs now rs).snek.segments[1]? = some h) ∧
    ((update ⟨h :: rest, 3⟩ gs now rs).snek.segments[0]? = some ⟨h.row, h.col - 1⟩ ∧
     (update ⟨h :: rest, 3⟩ gs now rs).snek.segments[1]? = some h) := by
  have e0 : next_head ⟨h :: rest, 0⟩ = ⟨(h.row + (U32 - 1)) % U32, h.col⟩ := rfl
  have e1 : next_head ⟨h :: rest, 1⟩ = ⟨(h.row + 1) % U32, h.col⟩ := rfl
  have e2 : next_head ⟨h :: rest, 2⟩ = ⟨h.row, (h.col + 1) % U32⟩ := rfl
  have e3 : next_head ⟨h :: rest, 3⟩ = ⟨h.row, (h.col + (U32 - 1)) % U32⟩ := rfl
  obtain ⟨g0, s0⟩ := update_head_second h rest 0 gs now rs hne
  obtain ⟨g1, s1⟩ := update_head_second h rest 1 gs now rs hne
  obtain ⟨g2, s2⟩ := update_head_second h rest 2 gs now rs hne
  obtain ⟨g3, s3⟩ := update_head_second h rest 3 gs now rs hne
  rw [e0] at g0
  rw [e1] at g1
  rw [e2] at g2
  rw [e3] at g3
  rw [wrap_dec h.row hr1 (by omega)] at g0
  rw [wrap_inc h.row hr2] at g1
  rw [wrap_inc h.col hc2] at g2
  rw [wrap_dec h.col hc1 (by omega)] at g3
  exact ⟨⟨g0, s0⟩, ⟨g1, s1⟩, ⟨g2, s2⟩, ⟨g3, s3⟩⟩

/-- Witness for C5_advance_table at the initial head (15, 52) with one
trailing segment, over an empty board. -/
theorem C5_witness :
    ((update ⟨⟨15, 52⟩ :: [⟨15, 51⟩], 0⟩ (init_gs 0) 0 []).snek.segments[0]? =
        some ⟨15 - 1, 52⟩ ∧
     (update ⟨⟨15, 52⟩ :: [⟨15, 51⟩], 0⟩ (init_gs 0) 0 []).snek.segments[1]? =
        some ⟨15, 52⟩) ∧
    ((update ⟨⟨15, 52⟩ :: [⟨15, 51⟩], 1⟩ (init_gs 0) 0 []).snek.segments[0]? =
        some ⟨15 + 1, 52⟩ ∧
     (update ⟨⟨15, 52⟩ :: [⟨15, 51⟩], 1⟩ (init_gs 0) 0 []).snek.segments[1]? =
        some ⟨15, 52⟩) ∧
    ((update ⟨⟨15, 52⟩ :: [⟨15, 51⟩], 2⟩ (init_gs 0) 0 []).snek.segments[0]? =
        some ⟨15, 52 + 1⟩ ∧
     (update ⟨⟨15, 52⟩ :: [⟨15, 51⟩], 2⟩ (init_gs 0) 0 []).snek.segments[1]? =
        some ⟨15, 52⟩) ∧
    ((update ⟨⟨15, 52⟩ :: [⟨15, 51⟩], 3⟩ (init_gs 0) 0 []).snek.segments[0]? =
        some ⟨15, 52 - 1⟩ ∧
     (update ⟨⟨15, 52⟩ :: [⟨15, 51⟩], 3⟩ (init_gs 0) 0 []).snek.segments[1]? =
        some ⟨15, 52⟩) :=
  C5_advance_table ⟨15, 52⟩ [⟨15, 51⟩] (init_gs 0) 0 [] (by decide) (by decide)
    (by decide) (by decide) (by decide)

/-- Claim C4: over every run of ticks in which the snake survives
(update reports no game over and the head stays in bounds - in
particular it stays in bounds and never self-intersects), the segment
count after the run equals the count before plus 3 for each snack
pickup: each snack-eating tick adds net 3 segments and every other
tick leaves the count unchanged. -/
theorem C4_growth (sk : Snek) (gs : GameState) (inputs : List (Nat × Nat × List Nat))
    (hne : sk.segments ≠ []) (_hsafe : safe_run sk gs inputs = true) :
    (runTicks sk gs inputs).1.segments.length =
      sk.segments.length + 3 * snackTicks sk gs inputs :=
  runTicks_length inputs sk gs hne

/-- Witness for C4_growth: a two-tick run of the initial snake that
eats one snack at (15, 53), growing from 9 to 12 segments. -/
theorem C4_witness :
    (runTicks snek_init gs_snack1553 [(2, 0, []), (2, 0, [])]).1.segments.length =
      snek_init.segments.length + 3 * snackTicks snek_init gs_snack1553 [(2, 0, []), (2, 0, [])] :=
  C4_growth snek_init gs_snack1553 [(2, 0, []), (2, 0, [])] (by decide) (by decide)

/-- Claim C1 (amended): whenever the simulation step moves the new
head onto a Snack cell (and no poison expiry fires this tick), it adds
exactly 10 to the score, subtracts 1000 microseconds from the tick
interval in 32-bit unsigned arithmetic with no lower floor (so the
interval can reach 0 and wrap around past 2^32), clears that cell to
Empty, and grows the snake by 3 segments. -/
theorem C1_snack_effect (h : Pt) (rest : List Pt) (d : Nat) (gs : GameState)
    (now : Nat) (rs : List Nat)
    (hnp : ¬(gs.poisoned = true ∧ now - gs.poisoned_time ≥ POISON_DURATION))
    (hsnack : gs.items (idxPt (next_head ⟨h :: rest, d⟩)) = SNEK_SNACK) :
    (update ⟨h :: rest, d⟩ gs now rs).gs.score = (gs.score + 10) % U32 ∧
    (update ⟨h :: rest, d⟩ gs now rs).gs.speed = (gs.speed + (U32 - 1000)) % U32 ∧
    (update ⟨h :: rest, d⟩ gs now rs).gs.items (idxPt (next_head ⟨h :: rest, d⟩)) = EMPTY ∧
    (update ⟨h :: rest, d⟩ gs now rs).snek.segments.length = (h :: rest).length + 3 := by
  rw [update_snack h rest d gs now rs hnp hsnack]
  refine ⟨?_, ?_, ?_, ?_⟩
  · rw [(update_after_fields _ _ _ _).1]
  · rw [(update_after_fields _ _ _ _).2.1]
  · rw [update_after_items_of_mem _ _ _ _ (next_head ⟨h :: rest, d⟩) (by simp)]
    simp
  · rw [update_after_snek]
    simp [List.length_dropLast]

/-- Witness for C1_snack_effect: the initial head eats the snack at
(15, 53). -/
theorem C1_witness :
    (update ⟨⟨15, 52⟩ :: [⟨15, 51⟩], 2⟩ gs_snack1553 0 []).gs.score =
      (gs_snack1553.score + 10) % U32 ∧
    (update ⟨⟨15, 52⟩ :: [⟨15, 51⟩], 2⟩ gs_snack1553 0 []).gs.speed =
      (gs_snack1553.speed + (U32 - 1000)) % U32 ∧
    (update ⟨⟨15, 52⟩ :: [⟨15, 51⟩], 2⟩ gs_snack1553 0 []).gs.items
      (idxPt (next_head ⟨⟨15, 52⟩ :: [⟨15, 51⟩], 2⟩)) = EMPTY ∧
    (update ⟨⟨15, 52⟩ :: [⟨15, 51⟩], 2⟩ gs_snack1553 0 []).snek.segments.length =
      (⟨15, 52⟩ :: [⟨15, 51⟩] : List Pt).length + 3 :=
  C1_snack_effect ⟨15, 52⟩ [⟨15, 51⟩] 2 gs_snack1553 0 [] (by decide) (by decide)

/-- Claim C3 (amended): eating one power-item adds exactly 75 to the
score, halves the tick interval once, clears the cell, activates
poison stamped with the current time, and saves the current tick
interval only if no interval is currently saved (the code guards the
save with saved_speed == 0, not with the poisoned flag); when the
poison duration has elapsed at the start of a tick, the saved interval
is restored and cleared exactly once and the poison flag drops. -/
theorem C3_mushroom_and_restore :
    (∀ (h : Pt) (rest : List Pt) (d : Nat) (gs : GameState) (now : Nat) (rs : List Nat),
      ¬(gs.poisoned = true ∧ now - gs.poisoned_time ≥ POISON_DURATION) →
      gs.items (idxPt (next_head ⟨h :: rest, d⟩)) = MUSHROOM →
      (update ⟨h :: rest, d⟩ gs now rs).gs.score = (gs.score + 75) % U32 ∧
      (update ⟨h :: rest, d⟩ gs now rs).gs.speed = gs.speed / 2 ∧
      (update ⟨h :: rest, d⟩ gs now rs).gs.saved_speed =
        (if gs.saved_speed = 0 then gs.speed else gs.saved_speed) ∧
      (update ⟨h :: rest, d⟩ gs now rs).gs.poisoned = true ∧
      (update ⟨h :: rest, d⟩ gs now rs).gs.poisoned_time = now ∧
      (update ⟨h :: rest, d⟩ gs now rs).gs.items (idxPt (next_head ⟨h :: rest, d⟩)) = EMPTY) ∧
    (∀ (h : Pt) (rest : List Pt) (d : Nat) (gs : GameState) (now : Nat) (rs : List Nat),
      gs.poisoned = true → now - gs.poisoned_time ≥ POISON_DURATION →
      gs.items (idxPt (next_head ⟨h :: rest, d⟩)) = EMPTY →
      (update ⟨h :: rest, d⟩ gs now rs).gs.speed = gs.saved_speed ∧
      (update ⟨h :: rest, d⟩ gs now rs).gs.saved_speed = 0 ∧
      (update ⟨h :: rest, d⟩ gs now rs).gs.poisoned = false) := by
  constructor
  · intro h rest d gs now rs hnp hmush
    rw [update_mushroom h rest d gs now rs hnp hmush]
    refine ⟨?_, ?_, ?_, ?_, ?_, ?_⟩
    · rw [(update_after_fields _ _ _ _).1]
    · rw [(update_after_fields _ _ _ _).2.1]
    · rw [(update_after_fields _ _ _ _).2.2.1]
    · rw [(update_after_fields _ _ _ _).2.2.2.1]
    · rw [(update_after_fields _ _ _ _).2.2.2.2]
    · rw [update_after_items_of_mem _ _ _ _ (next_head ⟨h :: rest, d⟩) (by simp)]
      simp
  · intro h rest d gs now rs hp hd hempty
    have hrw := poison_restore_yes gs now hp hd
    simp only [update, poison_restore_items, hempty]
    rw [if_neg (show ¬(EMPTY = SNEK_SNACK) by decide),
      if_neg (show ¬(EMPTY = MUSHROOM) by decide),
      if_neg (show ¬(EMPTY = WALL) by decide)]
    refine ⟨?_, ?_, ?_⟩
    · rw [(update_after_fields _ _ _ _).2.1, hrw]
    · rw [(update_after_fields _ _ _ _).2.2.1, hrw]
    · rw [(update_after_fields _ _ _ _).2.2.2.1, hrw]

/-- Witness for C3_mushroom_and_restore: a mushroom eaten at (15, 53)
with nothing saved, and a restore on a poisoned state whose duration
has elapsed. -/
theorem C3_witness :
    ((update ⟨⟨15, 52⟩ :: [⟨15, 51⟩], 2⟩ gs_mush1553 0 []).gs.score =
        (gs_mush1553.score + 75) % U32 ∧
      (update ⟨⟨15, 52⟩ :: [⟨15, 51⟩], 2⟩ gs_mush1553 0 []).gs.speed =
        gs_mush1553.speed / 2 ∧
      (update ⟨⟨15, 52⟩ :: [⟨15, 51⟩], 2⟩ gs_mush1553 0 []).gs.saved_speed =
        (if gs_mush1553.saved_speed = 0 then gs_mush1553.speed else gs_mush1553.saved_speed) ∧
      (update ⟨⟨15, 52⟩ :: [⟨15, 51⟩], 2⟩ gs_mush1553 0 []).gs.poisoned = true ∧
      (update ⟨⟨15, 52⟩ :: [⟨15, 51⟩], 2⟩ gs_mush1553 0 []).gs.poisoned_time = 0 ∧
      (update ⟨⟨15, 52⟩ :: [⟨15, 51⟩], 2⟩ gs_mush1553 0 []).gs.items
        (idxPt (next_head ⟨⟨15, 52⟩ :: [⟨15, 51⟩], 2⟩)) = EMPTY) ∧
    ((update ⟨⟨15, 52⟩ :: [⟨15, 51⟩], 2⟩ gs_poisoned 10 []).gs.speed =
        gs_poisoned.saved_speed ∧
      (update ⟨⟨15, 52⟩ :: [⟨15, 51⟩], 2⟩ gs_poisoned 10 []).gs.saved_speed = 0 ∧
      (update ⟨⟨15, 52⟩ :: [⟨15, 51⟩], 2⟩ gs_poisoned 10 []).gs.poisoned = false) :=
  ⟨C3_mushroom_and_restore.1 ⟨15, 52⟩ [⟨15, 51⟩] 2 gs_mush1553 0 [] (by decide) (by decide),
   C3_mushroom_and_restore.2 ⟨15, 52⟩ [⟨15, 51⟩] 2 gs_poisoned 10 [] (by decide) (by decide)
     (by decide)⟩

/-- Claim C3, counterexample: the save is guarded by saved_speed == 0,
not by the poisoned flag, so a power-item eaten while the snake is
already poisoned still saves the current tick interval whenever the
interval saved at poisoning time was 0.  Such states arise from play:
the interval reaches exactly 0 after 100 snacks (compare the
play-through, where it reaches 0 - 1000 after 101), a mushroom eaten
at interval 0 saves 0 and poisons, and a snack eaten while poisoned
wraps the interval to a nonzero value.  Here such a state (poisoned,
saved_speed 0, speed 40) eats the mushroom at (15, 53): the update
overwrites the saved interval while already poisoned, which the claim
forbids. -/
theorem C3_counterexample :
    gs_zero_saved.poisoned = true ∧
    gs_zero_saved.saved_speed = 0 ∧
    gs_zero_saved.items (idxPt (next_head snek_init)) = MUSHROOM ∧
    gs_zero_saved.speed = 40 ∧
    (update snek_init gs_zero_saved 100 []).gs.saved_speed = 40 :=
  ⟨rfl, rfl, rfl, rfl, rfl⟩

/-- The 36-iteration play-through above reaches s35: every iteration
is a legal main loop step (monotone clock, legal rand values, no game
over). -/
lemma reach_s35 : ReachableAt s35 1080 := by
  have h0 : ReachableAt s0 1000 := ReachableAt.init rsInit 1000 rfl
  have h1 : ReachableAt s1 (nowAt 1) :=
    ReachableAt.step s0 1000 Key.none (nowAt 1)
      (barrierRands 1 ++ snackRands 1 ++ mushRands 1) s1 h0 (by decide) rfl rfl
  have h2 : ReachableAt s2 (nowAt 2) :=
    ReachableAt.step s1 (nowAt 1) Key.none (nowAt 2)
      (barrierRands 2 ++ snackRands 2 ++ mushRands 2) s2 h1 (by decide) rfl rfl
  have h3 : ReachableAt s3 (nowAt 3) :=
    ReachableAt.step s2 (nowAt 2) Key.none (nowAt 3)
      (barrierRands 3 ++ snackRands 3 ++ mushRands 3) s3 h2 (by decide) rfl rfl
  have h4 : ReachableAt s4 (nowAt 4) :=
    ReachableAt.step s3 (nowAt 3) Key.none (nowAt 4)
      (barrierRands 4 ++ snackRands 4 ++ mushRands 4) s4 h3 (by decide) rfl rfl
  have h5 : ReachableAt s5 (nowAt 5) :=
    ReachableAt.step s4 (nowAt 4) Key.none (nowAt 5)
      (barrierRands 5 ++ snackRands 5 ++ mushRands 5) s5 h4 (by decide) rfl rfl
  have h6 : ReachableAt s6 (nowAt 6) :=
    ReachableAt.step s5 (nowAt 5) Key.none (nowAt 6)
      (barrierRands 6 ++ snackRands 6 ++ mushRands 6) s6 h5 (by decide) rfl rfl
  have h7 : ReachableAt s7 (nowAt 7) :=
    ReachableAt.step s6 (nowAt 6) Key.none (nowAt 7)
      (barrierRands 7 ++ snackRands 7 ++ mushRands 7) s7 h6 (by decide) rfl rfl
  have h8 : ReachableAt s8 (nowAt 8) :=
    ReachableAt.step s7 (nowAt 7) Key.none (nowAt 8)
      (barrierRands 8 ++ snackRands 8 ++ mushRands 8) s8 h7 (by decide) rfl rfl
  have h9 : ReachableAt s9 (nowAt 9) :=
    ReachableAt.step s8 (nowAt 8) Key.none (nowAt 9)
      (barrierRands 9 ++ snackRands 9 ++ mushRands 9) s9 h8 (by decide) rfl rfl
  have h10 : ReachableAt s10 (nowAt 10) :=
    ReachableAt.step s9 (nowAt 9) Key.none (nowAt 10)
      (barrierRands 10 ++ snackRands 10 ++ mushRands 10) s10 h9 (by decide) rfl rfl
  have h11 : ReachableAt s11 (nowAt 11) :=
    ReachableAt.step s10 (nowAt 10) Key.none (nowAt 11)
      (barrierRands 11 ++ snackRands 11 ++ mushRands 11) s11 h10 (by decide) rfl rfl
  have h12 : ReachableAt s12 (nowAt 12) :=
    ReachableAt.step s11 (nowAt 11) Key.none (nowAt 12)
      (barrierRands 12 ++ snackRands 12 ++ mushRands 12) s12 h11 (by decide) rfl rfl
  have h13 : ReachableAt s13 (nowAt 13) :=
    ReachableAt.step s12 (nowAt 12) Key.none (nowAt 13)
      (barrierRands 13 ++ snackRands 13 ++ mushRands 13) s13 h12 (by decide) rfl rfl
  have h14 : ReachableAt s14 (nowAt 14) :=
    ReachableAt.step s13 (nowAt 13) Key.none (nowAt 14)
      (barrierRands 14 ++ snackRands 14 ++ mushRands 14) s14 h13 (by decide) rfl rfl
  have h15 : ReachableAt s15 (nowAt 15) :=
    ReachableAt.step s14 (nowAt 14) Key.none (nowAt 15)
      (barrierRands 15 ++ snackRands 15 ++ mushRands 15) s15 h14 (by decide) rfl rfl
  have h16 : ReachableAt s16 (nowAt 16) :=
    ReachableAt.step s15 (nowAt 15) Key.none (nowAt 16)
      (barrierRands 16 ++ snackRands 16 ++ mushRands 16) s16 h15 (by decide) rfl rfl
  have h17 : ReachableAt s17 (nowAt 17) :=
    ReachableAt.step s16 (nowAt 16) Key.none (nowAt 17)
      (barrierRands 17 ++ snackRands 17 ++ mushRands 17) s17 h16 (by decide) rfl rfl
  have h18 : ReachableAt s18 (nowAt 18) :=
    ReachableAt.step s17 (nowAt 17) Key.none (nowAt 18)
      (barrierRands 18 ++ snackRands 18 ++ mushRands 18) s18 h17 (by decide) rfl rfl
  have h19 : ReachableAt s19 (nowAt 19) :=
    ReachableAt.step s18 (nowAt 18) Key.none (nowAt 19)
      (barrierRands 19 ++ snackRands 19 ++ mushRands 19) s19 h18 (by decide) rfl rfl
  have h20 : ReachableAt s20 (nowAt 20) :=
    ReachableAt.step s19 (nowAt 19) Key.none (nowAt 20)
      (barrierRands 20 ++ snackRands 20 ++ mushRands 20) s20 h19 (by decide) rfl rfl
  have h21 : ReachableAt s21 (nowAt 21) :=
    ReachableAt.step s20 (nowAt 20) Key.none (nowAt 21)
      (barrierRands 21 ++ snackRands 21 ++ mushRands 21) s21 h20 (by decide) rfl rfl
  have h22 : ReachableAt s22 (nowAt 22) :=
    ReachableAt.step s21 (nowAt 21) Key.none (nowAt 22)
      (barrierRands 22 ++ snackRands 22 ++ mushRands 22) s22 h21 (by decide) rfl rfl
  have h23 : ReachableAt s23 (nowAt 23) :=
    ReachableAt.step s22 (nowAt 22) Key.none (nowAt 23)
      (barrierRands 23 ++ snackRands 23 ++ mushRands 23) s23 h22 (by decide) rfl rfl
  have h24 : ReachableAt s24 (nowAt 24) :=
    ReachableAt.step s23 (nowAt 23) Key.none (nowAt 24)
      (barrierRands 24 ++ snackRands 24 ++ mushRands 24) s24 h23 (by decide) rfl rfl
  have h25 : ReachableAt s25 (nowAt 25) :=
    ReachableAt.step s24 (nowAt 24) Key.none (nowAt 25)
      (barrierRands 25 ++ snackRands 25 ++ mushRands 25) s25 h24 (by decide) rfl rfl
  have h26 : ReachableAt s26 (nowAt 26) :=
    ReachableAt.step s25 (nowAt 25) Key.none (nowAt 26)
      (barrierRands 26 ++ snackRands 26 ++ mushRands 26) s26 h25 (by decide) rfl rfl
  have h27 : ReachableAt s27 (nowAt 27) :=
    ReachableAt.step s26 (nowAt 26) Key.none (nowAt 27)
      (barrierRands 27 ++ snackRands 27 ++ mushRands 27) s27 h26 (by decide) rfl rfl
  have h28 : ReachableAt s28 (nowAt 28) :=
    ReachableAt.step s27 (nowAt 27) Key.none (nowAt 28)
      (barrierRands 28 ++ snackRands 28 ++ mushRands 28) s28 h27 (by decide) rfl rfl
  have h29 : ReachableAt s29 (nowAt 29) :=
    ReachableAt.step s28 (nowAt 28) Key.none (nowAt 29)
      (barrierRands 29 ++ snackRands 29 ++ mushRands 29) s29 h28 (by decide) rfl rfl
  have h30 : ReachableAt s30 (nowAt 30) :=
    ReachableAt.step s29 (nowAt 29) Key.none (nowAt 30)
      (barrierRands 30 ++ snackRands 30 ++ mushRands 30) s30 h29 (by decide) rfl rfl
  have h31 : ReachableAt s31 (nowAt 31) :=
    ReachableAt.step s30 (nowAt 30) Key.none (nowAt 31)
      (barrierRands 31 ++ snackRands 31 ++ mushRands 31) s31 h30 (by decide) rfl rfl
  have h32 : ReachableAt s32 (nowAt 32) :=
    ReachableAt.step s31 (nowAt 31) Key.none (nowAt 32)
      (barrierRands 32 ++ snackRands 32 ++ mushRands 32) s32 h31 (by decide) rfl rfl
  have h33 : ReachableAt s33 (nowAt 33) :=
    ReachableAt.step s32 (nowAt 32) Key.none (nowAt 33)
      (barrierRands 33 ++ snackRands 33 ++ mushRands 33) s33 h32 (by decide) rfl rfl
  have h34 : ReachableAt s34 (nowAt 34) :=
    ReachableAt.step s33 (nowAt 33) Key.none (nowAt 34)
      (barrierRands 34 ++ snackRands 34 ++ mushRands 34) s34 h33 (by decide) rfl rfl
  have h35 : ReachableAt s35 (nowAt 35) :=
    ReachableAt.step s34 (nowAt 34) Key.none (nowAt 35)
      (barrierRands 35 ++ snackRands 35 ++ mushRands 35) s35 h34 (by decide) rfl rfl
  exact h35

/-- Claim C1, counterexample: in the reachable state s35 the next cell
on the path holds a Snack and the tick interval is 617; the snack
pickup then sets the interval to (617 - 1000) mod 2^32 = 4294966913.
The interval does not decrease by 1000 and is not held at any floor:
the code has no floor at all, the uint32_t subtraction simply wraps
once the interval drops below 1000 (it reaches small values by
repeated snack pickups of -1000 from 100000 and by mushroom
halvings). -/
theorem C1_counterexample :
    ReachableAt s35 1080 ∧
    s35.gs.items (idxPt (next_head s35.snek)) = SNEK_SNACK ∧
    s35.gs.speed = 617 ∧
    (update s35.snek s35.gs 1080 []).gs.speed = 4294966913 := by
  have e1 : s35.gs.items (idxPt (next_head s35.snek)) = SNEK_SNACK := rfl
  have e2 : s35.gs.speed = 617 := rfl
  have e3 : (update s35.snek s35.gs 1080 []).gs.speed = 4294966913 := rfl
  exact ⟨reach_s35, e1, e2, e3⟩
